import Mathlib

/-!
# Verification of the dbt-to-Dataform dialect-dispatch and naming-policy functions

Shallow embedding of the JavaScript functions of the repository:

* `generateSchemaName` from `includes/generate_schema_name.js`: decides the
  schema name from a custom name, a node classification, the project default
  schema and the compilation variable `environment`.
* `centsToDollars` from the dialect-dispatch utility file: a `switch` on
  `dataform.projectConfig.warehouse` returning a SQL expression string.
* `dateTrunc` from the utilities file: returns the BigQuery form
  `DATE_TRUNC(column, UNIT)` with the period upper-cased.

JavaScript values of type `string | null | undefined` are embedded as
`Option String` (`none` for both `null` and `undefined`); JavaScript
truthiness of such a value is `jsTruthy`.  String trimming and upper-casing
are modelled on the character list (ASCII, matching the behaviour of the
JavaScript methods on the ASCII inputs the code uses).
-/

namespace DbtToDataform

/-- Truthiness of a JavaScript `string | null | undefined` value:
`null`, `undefined` and the empty string are falsy, every other string is
truthy (in particular a whitespace-only string is truthy). -/
def jsTruthy : Option String → Bool
  | none => false
  | some s => !(s == "")

/-- Model of JavaScript `String.prototype.trim`: drop whitespace characters
from both ends of the string (ASCII whitespace). -/
def jsTrim (s : String) : String :=
  String.mk (((s.data.dropWhile Char.isWhitespace).reverse.dropWhile
    Char.isWhitespace).reverse)

/-- Model of JavaScript `String.prototype.toUpperCase` on ASCII input:
upper-case every character. -/
def jsToUpperCase (s : String) : String :=
  String.mk (s.data.map Char.toUpper)

/-- The `node` argument of `generateSchemaName`: an object that may carry a
`resourceType` property (absent property embedded as `none`). -/
structure Node where
  resourceType : Option String
deriving Repr, DecidableEq

/-- Embedding of `generateSchemaName(customSchemaName, node)` from
`includes/generate_schema_name.js`.  The globals it reads are passed
explicitly: `defaultSchema` is `dataform.projectConfig.defaultSchema`
(`none` if unset, in which case template interpolation renders it as the
text `undefined`), `environment` is `dataform.variable("environment")`.
`node || {}` becomes `node.getD` of the empty object.  The JavaScript
function returns `string | null | undefined` (the seed branch can return
the custom name value as-is), hence the `Option String` result. -/
def generateSchemaName (defaultSchema environment customSchemaName : Option String)
    (node : Option Node) : Option String :=
  let effectiveNode := node.getD { resourceType := none }
  if effectiveNode.resourceType = some "seed" then
    if jsTruthy customSchemaName then some (jsTrim (customSchemaName.getD ""))
    else customSchemaName
  else if jsTruthy customSchemaName = false then
    defaultSchema
  else if environment = some "prod" then
    some (defaultSchema.getD "undefined" ++ "_" ++ jsTrim (customSchemaName.getD ""))
  else
    defaultSchema

/-- Embedding of `centsToDollars(column_name)` from the dialect-dispatch
utility file: a `switch` on `dataform.projectConfig.warehouse`, passed
explicitly as `warehouse`. -/
def centsToDollars (warehouse : String) (column_name : String) : String :=
  if warehouse = "bigquery" then
    "round(cast((" ++ column_name ++ " / 100) as numeric), 2)"
  else if warehouse = "postgres" then
    "(" ++ column_name ++ "::numeric(16, 2) / 100)"
  else if warehouse = "sqlserver" then
    "cast(" ++ column_name ++ " / 100 as numeric(16,2))"
  else
    "(" ++ column_name ++ " / 100)::numeric(16, 2)"

/-- `centsToDollars` invoked with a JavaScript argument list: the function
declares one parameter, so a call binds the first operand to `column_name`
and ignores the rest; a call with no operands binds `undefined`, which the
template literal renders as the text `undefined`. -/
def centsToDollarsArgs (warehouse : String) (operands : List String) : String :=
  centsToDollars warehouse (operands.headD "undefined")

/-- Embedding of `dateTrunc(period, column)` from the utilities file:
`const unit = period.toUpperCase(); return DATE_TRUNC(column, unit)`.
The function takes no dialect argument: it always produces the BigQuery
form. -/
def dateTrunc (period : String) (column : String) : String :=
  "DATE_TRUNC(" ++ column ++ ", " ++ jsToUpperCase period ++ ")"

/-- A single-quote character as a string, for writing SQL literals. -/
def singleQuote : String := Char.toString (Char.ofNat 39)

/- ### Helper lemmas -/

/-- `jsTruthy` is false exactly on absent and empty values. -/
lemma jsTruthy_eq_false_iff (v : Option String) :
    jsTruthy v = false ↔ v = none ∨ v = some "" := by
  cases v with
  | none => simp [jsTruthy]
  | some s =>
    simp only [jsTruthy, Bool.not_eq_false', beq_iff_eq]
    constructor
    · intro h; exact Or.inr (by simp [h])
    · rintro (h | h)
      · exact absurd h (by simp)
      · simpa using h

/-- A string with a non-empty left part of an append is non-empty. -/
lemma append_ne_empty_left (a b : String) (h : a ≠ "") : a ++ b ≠ "" := by
  intro hab
  apply h
  have hlen := congrArg String.length hab
  rw [String.length_append] at hlen
  have ha : a.length = 0 := by
    have : a.length + b.length = 0 := by simpa using hlen
    omega
  cases a with
  | mk d =>
    cases d with
    | nil => rfl
    | cons c cs => simp [String.length, List.length] at ha

/-- A basic-latin character in the range of `Char.ofNat` applied to an
upper-case code point is not a lower-case code point. -/
lemma char_ofNat_upper_not_lower (m : Nat) (h1 : 65 ≤ m) (h2 : m ≤ 90) :
    ¬((Char.ofNat m).toNat ≥ 97 ∧ (Char.ofNat m).toNat ≤ 122) := by
  interval_cases m <;> decide

/-- `Char.toUpper` on a lower-case basic-latin character subtracts 32. -/
lemma char_toUpper_eq_of_lower (c : Char) (h : c.toNat ≥ 97 ∧ c.toNat ≤ 122) :
    Char.toUpper c = Char.ofNat (c.toNat - 32) := by
  simp [Char.toUpper, h]

/-- `Char.toUpper` fixes every character that is not lower-case basic latin. -/
lemma char_toUpper_eq_of_not_lower (c : Char) (h : ¬(c.toNat ≥ 97 ∧ c.toNat ≤ 122)) :
    Char.toUpper c = c := by
  simp only [Char.toUpper]
  rw [if_neg h]

/-- `Char.toUpper` is idempotent. -/
lemma char_toUpper_idem (c : Char) : Char.toUpper (Char.toUpper c) = Char.toUpper c := by
  by_cases h : c.toNat ≥ 97 ∧ c.toNat ≤ 122
  · rw [char_toUpper_eq_of_lower c h]
    apply char_toUpper_eq_of_not_lower
    exact char_ofNat_upper_not_lower _ (by omega) (by omega)
  · rw [char_toUpper_eq_of_not_lower c h, char_toUpper_eq_of_not_lower c h]

/-- Mapping `Char.toUpper` over a character list is idempotent. -/
lemma list_map_toUpper_idem (l : List Char) :
    (l.map Char.toUpper).map Char.toUpper = l.map Char.toUpper := by
  induction l with
  | nil => rfl
  | cons c cs ih => simp [char_toUpper_idem, ih]

/-- `jsToUpperCase` is idempotent. -/
lemma jsToUpperCase_idem (s : String) :
    jsToUpperCase (jsToUpperCase s) = jsToUpperCase s := by
  show String.mk ((s.data.map Char.toUpper).map Char.toUpper) =
    String.mk (s.data.map Char.toUpper)
  rw [list_map_toUpper_idem]

/-- In a non-seed evaluation, `generateSchemaName` follows the three
non-seed branches of the source: absent-or-empty custom name gives the
default, a truthy custom name gives the prefixed name exactly in the
`prod` environment and the default otherwise. -/
lemma gsn_nonseed (dsv env custom : Option String) (node : Option Node)
    (hnode : (node.getD { resourceType := none }).resourceType ≠ some "seed") :
    generateSchemaName dsv env custom node =
      if custom = none ∨ custom = some "" then dsv
      else if env = some "prod" then
        some (dsv.getD "undefined" ++ "_" ++ jsTrim (custom.getD ""))
      else dsv := by
  simp only [generateSchemaName]
  rw [if_neg hnode]
  cases h : jsTruthy custom with
  | false =>
    rw [if_pos rfl, if_pos ((jsTruthy_eq_false_iff custom).mp h)]
  | true =>
    have hcustom : ¬(custom = none ∨ custom = some "") := by
      intro hor
      have hfalse := (jsTruthy_eq_false_iff custom).mpr hor
      rw [h] at hfalse
      exact absurd hfalse (by decide)
    rw [if_neg (by simp), if_neg hcustom]

/-- In a seed evaluation, `generateSchemaName` follows the seed branch of
the source: a truthy custom name is trimmed, any other value is returned
as-is. -/
lemma gsn_seed (dsv env custom : Option String) (node : Option Node)
    (hnode : (node.getD { resourceType := none }).resourceType = some "seed") :
    generateSchemaName dsv env custom node =
      if jsTruthy custom then some (jsTrim (custom.getD "")) else custom := by
  simp only [generateSchemaName]
  rw [if_pos hnode]

/-- `centsToDollars` never returns the empty string: every branch of the
`switch` concatenates a non-empty literal in front of the operand. -/
lemma centsToDollars_ne_empty (w c : String) : centsToDollars w c ≠ "" := by
  unfold centsToDollars
  split
  · exact append_ne_empty_left _ _ (append_ne_empty_left _ _ (by decide))
  · split
    · exact append_ne_empty_left _ _ (append_ne_empty_left _ _ (by decide))
    · split
      · exact append_ne_empty_left _ _ (append_ne_empty_left _ _ (by decide))
      · exact append_ne_empty_left _ _ (append_ne_empty_left _ _ (by decide))

/- ### Claim theorems -/

/-- C1 (amended): for every non-seed classification and context with a
non-empty default schema, `generateSchemaName` obeys the ordered non-seed
rules of the source, where the custom name is tested for absence or
emptiness WITHOUT trimming (a whitespace-only custom name counts as
present): absent or empty gives the default schema, otherwise the `prod`
environment gives default + underscore + trimmed custom name and any other
environment gives the default schema. -/
theorem C1_nonseed_rules (ds : String) (env custom : Option String) (node : Option Node)
    (hds : ds ≠ "")
    (hnode : (node.getD { resourceType := none }).resourceType ≠ some "seed") :
    generateSchemaName (some ds) env custom node =
      if custom = none ∨ custom = some "" then some ds
      else if env = some "prod" then some (ds ++ "_" ++ jsTrim (custom.getD ""))
      else some ds := by
  rw [gsn_nonseed (some ds) env custom node hnode]
  simp only [Option.getD_some]

/-- Witness for C1: the rules applied to a model-like resource with custom
name "marketing" in the prod environment give "analytics_marketing". -/
theorem C1_nonseed_rules_witness :
    ("analytics" : String) ≠ "" ∧
    ((some { resourceType := some "model" } : Option Node).getD
      { resourceType := none }).resourceType ≠ some "seed" ∧
    generateSchemaName (some "analytics") (some "prod") (some "marketing")
      (some { resourceType := some "model" }) = some "analytics_marketing" := by
  refine ⟨by decide, by decide, ?_⟩
  rw [C1_nonseed_rules "analytics" (some "prod") (some "marketing")
    (some { resourceType := some "model" }) (by decide) (by decide)]
  decide

/-- C1 counterexample: a whitespace-only custom name is "empty after
trimming", so the claim requires the default schema "analytics" in prod;
the code treats it as present (truthy) and returns "analytics_". -/
theorem C1_counterexample :
    generateSchemaName (some "analytics") (some "prod") (some " ")
      (some { resourceType := some "model" }) = some "analytics_" ∧
    generateSchemaName (some "analytics") (some "prod") (some " ")
      (some { resourceType := some "model" }) ≠ some "analytics" := by
  constructor <;> decide

/-- C2 (amended): the postgres template for cents-to-dollars applied to
"price" yields "(price::numeric(16, 2) / 100)" — with a space after the
comma in the numeric precision, as written in the source. -/
theorem C2_postgres :
    centsToDollars "postgres" "price" = "(price::numeric(16, 2) / 100)" := by
  decide

/-- C2 counterexample: the claimed output "(price::numeric(16,2) / 100)"
(no space in "numeric(16,2)") differs from what the code returns. -/
theorem C2_counterexample :
    centsToDollars "postgres" "price" ≠ "(price::numeric(16,2) / 100)" := by
  decide

/-- C3 (amended): every dialect tag other than the three registered ones
takes the fallback branch, returning "(price / 100)::numeric(16, 2)" for
operand "price" — with a space after the comma — and never the empty
string. -/
theorem C3_fallback (w : String) (h1 : w ≠ "bigquery") (h2 : w ≠ "postgres")
    (h3 : w ≠ "sqlserver") :
    centsToDollars w "price" = "(price / 100)::numeric(16, 2)" ∧
    centsToDollars w "price" ≠ "" := by
  unfold centsToDollars
  rw [if_neg h1, if_neg h2, if_neg h3]
  exact ⟨rfl, by decide⟩

/-- Witness for C3 at the dialect tag "unknown-dialect". -/
theorem C3_fallback_witness :
    ("unknown-dialect" : String) ≠ "bigquery" ∧
    ("unknown-dialect" : String) ≠ "postgres" ∧
    ("unknown-dialect" : String) ≠ "sqlserver" ∧
    centsToDollars "unknown-dialect" "price" = "(price / 100)::numeric(16, 2)" :=
  ⟨by decide, by decide, by decide,
    (C3_fallback "unknown-dialect" (by decide) (by decide) (by decide)).1⟩

/-- C3 counterexample: the claimed fallback string
"(price / 100)::numeric(16,2)" (no space) is not what the code returns for
an unregistered dialect. -/
theorem C3_counterexample :
    centsToDollars "unknown-dialect" "price" ≠ "(price / 100)::numeric(16,2)" := by
  decide

/-- C4 (amended): for non-seed classifications with a non-empty default
schema the evaluator never returns an empty or absent name; but
whitespace-only custom names are NOT treated as absent — they are truthy,
and in the seed branch they trim to the empty string (see the
counterexample). -/
theorem C4_nonseed_nonempty (ds : String) (env custom : Option String) (node : Option Node)
    (hds : ds ≠ "")
    (hnode : (node.getD { resourceType := none }).resourceType ≠ some "seed") :
    generateSchemaName (some ds) env custom node ≠ some "" ∧
    generateSchemaName (some ds) env custom node ≠ none := by
  rw [gsn_nonseed (some ds) env custom node hnode]
  simp only [Option.getD_some]
  constructor
  · split
    · simp [hds]
    · split
      · intro h
        exact append_ne_empty_left _ _ (append_ne_empty_left _ _ hds)
          (Option.some.inj h)
      · simp [hds]
  · split
    · simp
    · split <;> simp

/-- Witness for C4 at a model-like resource in prod. -/
theorem C4_nonseed_nonempty_witness :
    ("analytics" : String) ≠ "" ∧
    generateSchemaName (some "analytics") (some "prod") (some "marketing")
      (some { resourceType := some "model" }) ≠ some "" :=
  ⟨by decide,
    (C4_nonseed_nonempty "analytics" (some "prod") (some "marketing")
      (some { resourceType := some "model" }) (by decide) (by decide)).1⟩

/-- C4 counterexample: a seed-like resource with a whitespace-only custom
name makes the evaluator return the empty string (the name is truthy, so
it is trimmed to ""), refuting "never returns an empty string". -/
theorem C4_counterexample :
    generateSchemaName (some "analytics") (some "prod") (some " ")
      (some { resourceType := some "seed" }) = some "" := by
  decide

/-- C5: the seed branch returns the custom name trimmed when it is truthy
(present and non-empty) and otherwise returns the value as-is; the result
never depends on the default schema or the environment, which the
right-hand side does not mention. -/
theorem C5_seed_branch (dsv env custom : Option String) :
    generateSchemaName dsv env custom (some { resourceType := some "seed" }) =
      if jsTruthy custom then some (jsTrim (custom.getD "")) else custom :=
  gsn_seed dsv env custom (some { resourceType := some "seed" }) rfl

/-- C6 (amended): `generateSchemaName` performs no validation of the
default schema: invoked with an empty default schema and an absent custom
name on a non-seed resource it returns the empty string as the name
instead of failing; no ConfigurationError exists in the code. -/
theorem C6_no_configuration_error (env : Option String) (node : Option Node)
    (hnode : (node.getD { resourceType := none }).resourceType ≠ some "seed") :
    generateSchemaName (some "") env none node = some "" := by
  rw [gsn_nonseed (some "") env none node hnode]
  simp

/-- Witness for C6 at a concrete model-like node. -/
theorem C6_no_configuration_error_witness :
    ((some { resourceType := some "model" } : Option Node).getD
      { resourceType := none }).resourceType ≠ some "seed" ∧
    generateSchemaName (some "") none none (some { resourceType := some "model" }) = some "" :=
  ⟨by decide,
    C6_no_configuration_error none (some { resourceType := some "model" }) (by decide)⟩

/-- C6 counterexample: with an empty default schema the policy returns a
name (the empty string) rather than failing with a ConfigurationError. -/
theorem C6_counterexample :
    generateSchemaName (some "") none none (some { resourceType := some "model" }) =
      some "" := by
  decide

/-- C7 (amended): no arity checking is performed: a call of
cents-to-dollars with any number of operands returns a non-empty SQL
string and never fails; a missing operand is rendered as the text
"undefined" and extra operands are ignored (see the counterexample). -/
theorem C7_no_arity_check (w : String) (ops : List String) :
    centsToDollarsArgs w ops ≠ "" := by
  unfold centsToDollarsArgs
  exact centsToDollars_ne_empty w _

/-- C7 counterexample: a zero-operand call does not raise an ArityError;
it returns a normal string with "undefined" interpolated, and a
two-operand call returns the same string as the one-operand call. -/
theorem C7_counterexample :
    centsToDollarsArgs "postgres" [] = "(undefined::numeric(16, 2) / 100)" ∧
    centsToDollarsArgs "postgres" ["price", "extra"] =
      centsToDollarsArgs "postgres" ["price"] := by
  constructor <;> decide

/-- C8 (amended): `dateTrunc` takes no dialect argument: for every period
and operand it always returns the BigQuery form with the unit unquoted and
upper-cased; no quoted lower-cased fallback branch exists in the code. -/
theorem C8_bigquery_form_always (u x : String) :
    dateTrunc u x = "DATE_TRUNC(" ++ x ++ ", " ++ jsToUpperCase u ++ ")" := rfl

/-- C8 counterexample: for period "day" and operand "ordered_at" the code
returns "DATE_TRUNC(ordered_at, DAY)", not the claimed quoted lower-cased
fallback form with the unit in single quotes. -/
theorem C8_counterexample :
    dateTrunc "day" "ordered_at" = "DATE_TRUNC(ordered_at, DAY)" ∧
    dateTrunc "day" "ordered_at" ≠
      "DATE_TRUNC(" ++ singleQuote ++ "day" ++ singleQuote ++ ", ordered_at)" := by
  constructor <;> decide

/-- C9: calling `generateSchemaName` with the node absent is safe: the
absent node is replaced by the empty object, the seed branch is not taken,
and the result coincides with the evaluation at any non-seed node. -/
theorem C9_absent_node (dsv env custom : Option String) (n : Node)
    (hn : n.resourceType ≠ some "seed") :
    generateSchemaName dsv env custom none = generateSchemaName dsv env custom (some n) := by
  rw [gsn_nonseed dsv env custom none (by decide),
    gsn_nonseed dsv env custom (some n) hn]

/-- Witness for C9 at concrete inputs with a model-like node. -/
theorem C9_absent_node_witness :
    ({ resourceType := some "model" } : Node).resourceType ≠ some "seed" ∧
    generateSchemaName (some "analytics") (some "prod") (some "marketing") none =
      generateSchemaName (some "analytics") (some "prod") (some "marketing")
        (some { resourceType := some "model" }) :=
  ⟨by decide,
    C9_absent_node (some "analytics") (some "prod") (some "marketing")
      { resourceType := some "model" } (by decide)⟩

/-- C10: `dateTrunc` is case-insensitive in its period argument — it
agrees with itself on the upper-cased period — and the returned expression
embeds the upper-cased period unquoted after the column. -/
theorem C10_period_case_insensitive (p c : String) :
    dateTrunc p c = dateTrunc (jsToUpperCase p) c ∧
    dateTrunc p c = "DATE_TRUNC(" ++ c ++ ", " ++ jsToUpperCase p ++ ")" := by
  refine ⟨?_, rfl⟩
  unfold dateTrunc
  rw [jsToUpperCase_idem]

end DbtToDataform
